import Mathlib

/-!
# Verification of the Local-Earthquake-Detection firmware core

Shallow embedding of the ESP32 firmware's detection and alert-dispatch
pipeline: the `EarthquakeDetector` STA/LTA state machine
(`firmware/src/earthquake_detector.cpp`), the bounded persistent
`EventQueue` (`firmware/src/event_queue.cpp`), and the orchestrating
sampling loop (`firmware/src/main.cpp`).

Modelling conventions:
* C++ `float` values are embedded as `ℚ`; `unsigned long` millisecond
  timestamps as `ℕ` (timestamps are monotone in every run considered, so
  truncated subtraction agrees with the firmware's unsigned arithmetic).
* `std::sqrt` and `std::log10` are irrational-valued; they are passed as
  explicit function parameters (`sqrtq`, `lg`).  Every theorem that does
  not depend on their numeric values is quantified over them; concrete
  runs instantiate `sqrtq` with `demoSqrt`, which agrees with the real
  square root on the perfect-square integers those runs use.
* `config.h` is not among the sources; its detection constants
  (`MIN_EVENT_DURATION_SEC`, the PGA thresholds above STRONG) are taken
  from the README / spec where needed and noted at their definitions.
* The persistence layer's fixed `DynamicJsonDocument(8192)` pool is
  modelled with the ArduinoJson 6 accounting the library documents:
  16-byte slots on the 32-bit target, copied strings counted with their
  terminators, literal keys linked when building and copied when parsing
  from a file stream.
-/

/-- One accelerometer sample (`AccelSample` in `earthquake_detector.h`). -/
structure AccelSample where
  x : ℚ
  y : ℚ
  z : ℚ
  timestamp : ℕ
deriving Repr, DecidableEq

/-- A characterized seismic event (`EarthquakeEvent` in
`earthquake_detector.h`).  `alertLevel` is a `String` in the C++ struct. -/
structure EarthquakeEvent where
  magnitude : ℚ
  pga : ℚ
  pgv : ℚ
  cav : ℚ
  startTime : ℕ
  duration : ℕ
  alertLevel : String
  confirmed : Bool
deriving Repr, DecidableEq

/-- The value-initialized `EarthquakeEvent()` used by
`EarthquakeDetector::reset`: all numeric fields zero, empty string,
`confirmed = false`. -/
def emptyEvent : EarthquakeEvent :=
  ⟨0, 0, 0, 0, 0, 0, "", false⟩

/-- One queue entry (`QueuedEvent` in `event_queue.h`). -/
structure QueuedEvent where
  event : EarthquakeEvent
  deviceId : String
  sent : Bool
deriving Repr, DecidableEq

/-- `MAX_QUEUE_SIZE` from `event_queue.h`. -/
def MAX_QUEUE_SIZE : ℕ := 100

/-- `EventQueue::addEvent`: append an unsent entry, evict the oldest when
the size exceeds `MAX_QUEUE_SIZE`.  (The subsequent `saveToDisk` call does
not change the in-memory queue.) -/
def addEvent (queue : List QueuedEvent) (event : EarthquakeEvent)
    (deviceId : String) : List QueuedEvent :=
  let q := queue ++ [⟨event, deviceId, false⟩]
  if q.length > MAX_QUEUE_SIZE then q.drop 1 else q

/-- A sequence of `addEvent` calls, oldest first. -/
def addMany (queue : List QueuedEvent)
    (items : List (EarthquakeEvent × String)) : List QueuedEvent :=
  items.foldl (fun q i => addEvent q i.1 i.2) queue

/-- `EventQueue::processQueue` body: walk the entries in order with the
send-attempt invocation counter `n`; a `sent` entry is passed over without
a send attempt; an unsent entry is sent — on success it is marked sent and
the walk continues, on failure the walk stops (`break`) leaving the rest
untouched.  Returns the updated queue, the final counter, and the
`anyProcessed` flag. -/
def processQueueAux (send : ℕ → QueuedEvent → Bool) :
    ℕ → List QueuedEvent → List QueuedEvent × ℕ × Bool
  | n, [] => ([], n, false)
  | n, e :: rest =>
    if e.sent then
      let r := processQueueAux send n rest
      (e :: r.1, r.2)
    else if send n e then
      let r := processQueueAux send (n + 1) rest
      ({ e with sent := true } :: r.1, r.2.1, true)
    else
      (e :: rest, n + 1, false)

/-- `EventQueue::processQueue`: the C++ `sendFunction` is a closure that
may carry call-count state, so it is modelled as a function of the
invocation index.  Returns the updated queue and `anyProcessed`. -/
def processQueue (send : ℕ → QueuedEvent → Bool)
    (queue : List QueuedEvent) : List QueuedEvent × Bool :=
  let r := processQueueAux send 0 queue
  (r.1, r.2.2)

/-- The flat JSON object written for one queue entry by
`EventQueue::saveToDisk` (fields `deviceId`, `sent`, and the nested
`event` object's eight fields, `alertLevel` as its string value). -/
structure EventRecord where
  deviceId : String
  sent : Bool
  magnitude : ℚ
  pga : ℚ
  pgv : ℚ
  cav : ℚ
  startTime : ℕ
  duration : ℕ
  alertLevel : String
  confirmed : Bool
deriving Repr, DecidableEq

/-- One queue entry encoded as the JSON object `saveToDisk` builds for
it: fields `deviceId`, `sent`, and the nested `event` object's eight
fields, `alertLevel` as its string value. -/
def encodeRecord (qe : QueuedEvent) : EventRecord :=
  ⟨qe.deviceId, qe.sent, qe.event.magnitude, qe.event.pga, qe.event.pgv,
   qe.event.cav, qe.event.startTime, qe.event.duration,
   qe.event.alertLevel, qe.event.confirmed⟩

/-- The queue-rebuilding half of `EventQueue::loadFromDisk`: read every
record of the `events` array back into a `QueuedEvent`. -/
def readRecords (records : List EventRecord) : List QueuedEvent :=
  records.map fun r =>
    ⟨⟨r.magnitude, r.pga, r.pgv, r.cav, r.startTime, r.duration,
      r.alertLevel, r.confirmed⟩, r.deviceId, r.sent⟩

/-- The persisted queue file as `loadFromDisk` can encounter it: missing,
unparseable, or a parsed `events` array. -/
inductive StoredFile where
  | absent : StoredFile
  | corrupt : StoredFile
  | valid : List EventRecord → StoredFile
deriving Repr, DecidableEq

/-- The records held by a stored file (empty when absent or corrupt). -/
def storedRecords : StoredFile → List EventRecord
  | .valid records => records
  | _ => []

/-- Modelled from the ArduinoJson 6 library the firmware links against
(the library is not part of the repository): on the 32-bit ESP32 target
every array element or object member occupies one 16-byte slot of the
document's fixed memory pool — the accounting the library documents as
`JSON_ARRAY_SIZE`/`JSON_OBJECT_SIZE` — and every copied string costs its
length plus one terminator byte.  When building a document, string-literal
keys are linked, not copied; when parsing from a file stream, every
string — keys included — is copied into the pool. -/
def JSON_SLOT_BYTES : ℕ := 16

/-- The fixed `DynamicJsonDocument` capacity that both `saveToDisk` and
`loadFromDisk` allocate (`DynamicJsonDocument doc(8192)` in
`event_queue.cpp`). -/
def JSON_DOC_CAPACITY : ℕ := 8192

/-- Pool bytes one queue entry consumes while `saveToDisk` builds its
document: 12 slots (the `events` array element, the `deviceId`/`sent`/
`event` members and the eight event fields) plus the two copied `String`
values (`deviceId`, `alertLevel`); the literal keys are linked, costing
nothing, on the build side. -/
def saveRecordCost (qe : QueuedEvent) : ℕ :=
  12 * JSON_SLOT_BYTES + (qe.deviceId.length + 1) +
    (qe.event.alertLevel.length + 1)

/-- The document-building loop of `EventQueue::saveToDisk` under the
fixed pool, `used` bytes already taken: records are appended while the
pool can hold them; from the first record it cannot, the library's
failed allocations silently drop the data.  (The real library can
additionally leave that first non-fitting record partially populated —
it never keeps more than this model keeps.) -/
def saveDocAux : ℕ → List QueuedEvent → List EventRecord
  | _, [] => []
  | used, qe :: rest =>
    if used + saveRecordCost qe ≤ JSON_DOC_CAPACITY then
      encodeRecord qe :: saveDocAux (used + saveRecordCost qe) rest
    else []

/-- The `events` array `saveToDisk` manages to build for a queue, after
the root object's member slot is taken from the pool. -/
def saveDoc (queue : List QueuedEvent) : List EventRecord :=
  saveDocAux JSON_SLOT_BYTES queue

/-- `EventQueue::saveToDisk`: returns `false` when the queue file cannot
be opened for writing (`openOk = false`, nothing written, the stored
file unchanged); otherwise builds the document inside the fixed
8192-byte pool, writes whatever was built — truncation is silent — and
returns `true`. -/
def saveToDisk (openOk : Bool) (queue : List QueuedEvent)
    (file : StoredFile) : Bool × StoredFile :=
  if openOk then (true, .valid (saveDoc queue)) else (false, file)

/-- Bytes of the eleven literal keys of one record (`deviceId`, `sent`,
`event`, `magnitude`, `pga`, `pgv`, `cav`, `startTime`, `duration`,
`alertLevel`, `confirmed`), each with its terminator: 82.  `loadFromDisk`
parses from a file stream, so the library copies every key into the
pool. -/
def loadKeyBytes : ℕ := 82

/-- Pool bytes one record consumes when `loadFromDisk` parses it: the
same 12 slots as on the save side, the copied keys, and the two copied
string values. -/
def loadRecordCost (r : EventRecord) : ℕ :=
  12 * JSON_SLOT_BYTES + loadKeyBytes + (r.deviceId.length + 1) +
    (r.alertLevel.length + 1)

/-- Pool bytes `loadFromDisk` needs to parse a stored `events` document:
the root member slot, its copied `events` key (7 bytes), and every
record. -/
def loadDocCost (records : List EventRecord) : ℕ :=
  JSON_SLOT_BYTES + 7 + (records.map loadRecordCost).sum

/-- `EventQueue::loadFromDisk` on in-memory queue `q`: a missing file
leaves `q` and returns `true`; an unparseable file returns `false`
without touching `q` (and without deleting the file); a parsed file
replaces `q` by the decoded records — unless the document needs more
than the fixed 8192-byte pool, in which case `deserializeJson` fails
with `NoMemory` and the function likewise returns `false` leaving `q`
untouched. -/
def loadFromDisk (file : StoredFile) (q : List QueuedEvent) :
    Bool × List QueuedEvent :=
  match file with
  | .absent => (true, q)
  | .corrupt => (false, q)
  | .valid records =>
    if loadDocCost records ≤ JSON_DOC_CAPACITY then
      (true, readRecords records)
    else (false, q)

/-- `EventQueue::init`: fail when the storage mount fails, otherwise
return `loadFromDisk`'s verdict.  The in-memory queue of the freshly
constructed `EventQueue` is empty. -/
def eqInit (mountOk : Bool) (file : StoredFile) :
    Bool × List QueuedEvent :=
  if mountOk then loadFromDisk file [] else (false, [])

/-- Detection parameters of `EarthquakeDetector`.  The C++ constructor
derives `staWindowSamples`/`ltaWindowSamples` from window lengths in
seconds; the derived sample counts are carried directly here.
`minEventDurationMs` is `MIN_EVENT_DURATION_SEC * 1000` from `config.h`
(the header is not among the sources, so the floor is a parameter). -/
structure DetectorCfg where
  sampleRate : ℕ
  staWindowSamples : ℕ
  ltaWindowSamples : ℕ
  triggerThreshold : ℚ
  detriggerThreshold : ℚ
  minEventDurationMs : ℕ
deriving Repr, DecidableEq

/-- Mutable state of `EarthquakeDetector`. -/
structure DetectorState where
  sampleBuffer : List AccelSample
  triggered : Bool
  triggerTime : ℕ
  currentEvent : EarthquakeEvent
deriving Repr, DecidableEq

/-- The state produced by `EarthquakeDetector::reset` (and `init`). -/
def resetState : DetectorState :=
  ⟨[], false, 0, emptyEvent⟩

/-- A concrete stand-in for `std::sqrt` for the concrete runs below,
which only ever take square roots of `0` and `10000` (samples lie on one
axis with integer coordinates); it agrees with the real square root on
both, so those runs compute exactly what the firmware would. -/
def demoSqrt (q : ℚ) : ℚ :=
  if q = 10000 then 100 else 0

/-- `EarthquakeDetector::calculateMagnitude`: gravity-compensated
magnitude `|sqrt(ax²+ay²+az²) − 9.81|`, with the square root abstracted
as `sqrtq`. -/
def calculateMagnitude (sqrtq : ℚ → ℚ) (ax ay az : ℚ) : ℚ :=
  |sqrtq (ax * ax + ay * ay + az * az) - 981 / 100|

/-- Squared gravity-compensated magnitude of a sample, the quantity the
STA/LTA sums accumulate. -/
def sqMag (sqrtq : ℚ → ℚ) (s : AccelSample) : ℚ :=
  calculateMagnitude sqrtq s.x s.y s.z * calculateMagnitude sqrtq s.x s.y s.z

/-- `EarthquakeDetector::calculateSTA`: mean of squared magnitude over the
loop range `[size − staWindowSamples, size)`, i.e. the buffer suffix of
`staWindowSamples` samples; `0` when the buffer is shorter than that. -/
def calculateSTA (cfg : DetectorCfg) (sqrtq : ℚ → ℚ)
    (buffer : List AccelSample) : ℚ :=
  if buffer.length < cfg.staWindowSamples then 0
  else
    (((buffer.drop (buffer.length - cfg.staWindowSamples)).map
        (sqMag sqrtq)).sum) / (cfg.staWindowSamples : ℚ)

/-- `EarthquakeDetector::calculateLTA`: mean of squared magnitude over the
loop range `[size − ltaWindowSamples, size − staWindowSamples)` divided by
`ltaWindowSamples − staWindowSamples` (with the C++ guard returning `0`
when that count is not positive); `0` when the buffer is shorter than
`ltaWindowSamples`. -/
def calculateLTA (cfg : DetectorCfg) (sqrtq : ℚ → ℚ)
    (buffer : List AccelSample) : ℚ :=
  if buffer.length < cfg.ltaWindowSamples then 0
  else
    let ltaSamples := cfg.ltaWindowSamples - cfg.staWindowSamples
    let s := (((buffer.drop (buffer.length - cfg.ltaWindowSamples)).take
        ltaSamples).map (sqMag sqrtq)).sum
    if ltaSamples > 0 then s / (ltaSamples : ℚ) else 0

/-- The ratio computation shared by `addSample` and `getStaLtaRatio`:
`sta/lta` guarded by `lta > 0.0001`, else `0`. -/
def staLtaRatio (cfg : DetectorCfg) (sqrtq : ℚ → ℚ)
    (buffer : List AccelSample) : ℚ :=
  let sta := calculateSTA cfg sqrtq buffer
  let lta := calculateLTA cfg sqrtq buffer
  if lta > 1 / 10000 then sta / lta else 0

/-- `EarthquakeDetector::calculatePGA`: peak `|magnitude|/9.81` (in g)
over the most recent `min(size, 3·sampleRate)` samples, running the C++
`if (pgaG > maxPGA)` update from `0`. -/
def calculatePGA (cfg : DetectorCfg) (sqrtq : ℚ → ℚ)
    (buffer : List AccelSample) : ℚ :=
  if buffer.isEmpty then 0
  else
    let windowSize := min buffer.length (3 * cfg.sampleRate)
    (buffer.drop (buffer.length - windowSize)).foldl
      (fun maxPGA s =>
        let pgaG := calculateMagnitude sqrtq s.x s.y s.z / (981 / 100)
        if pgaG > maxPGA then pgaG else maxPGA) 0

/-- `EarthquakeDetector::calculateCAV`: sum of `|magnitude|/9.81 · dt`
from the first buffered sample at or after `triggerTime` (index `0` when
`triggerTime = 0` or when no such sample exists, as in the C++ scan). -/
def calculateCAV (cfg : DetectorCfg) (sqrtq : ℚ → ℚ) (triggerTime : ℕ)
    (buffer : List AccelSample) : ℚ :=
  if buffer.isEmpty then 0
  else
    let dt : ℚ := 1 / (cfg.sampleRate : ℚ)
    let startIdx :=
      if triggerTime > 0 then
        match buffer.findIdx? (fun s => triggerTime ≤ s.timestamp) with
        | some i => i
        | none => 0
      else 0
    ((buffer.drop startIdx).map
      (fun s => |calculateMagnitude sqrtq s.x s.y s.z / (981 / 100)| * dt)).sum

/-- PGA alert thresholds from `config.h` (in g).  LIGHT/MODERATE/STRONG
appear in the repository README; `config.h` itself is not among the
sources.  Modelled from the spec: `PGA_THRESHOLD_SEVERE = 0.25` and
`PGA_THRESHOLD_VIOLENT = 0.45` are the spec's SEVERE/EXTREME rows. -/
def PGA_THRESHOLD_LIGHT : ℚ := 3 / 100

/-- `PGA_THRESHOLD_MODERATE` from `config.h` (README). -/
def PGA_THRESHOLD_MODERATE : ℚ := 8 / 100

/-- `PGA_THRESHOLD_STRONG` from `config.h` (README). -/
def PGA_THRESHOLD_STRONG : ℚ := 15 / 100

/-- Modelled from the spec: `PGA_THRESHOLD_SEVERE` (spec table, 0.25 g);
`config.h` is absent from the sources. -/
def PGA_THRESHOLD_SEVERE : ℚ := 25 / 100

/-- Modelled from the spec: `PGA_THRESHOLD_VIOLENT` (spec table's EXTREME
row, 0.45 g); `config.h` is absent from the sources. -/
def PGA_THRESHOLD_VIOLENT : ℚ := 45 / 100

/-- `EarthquakeDetector::determineAlertLevel`: descending threshold
cascade on PGA in g, each bound an inclusive lower bound. -/
def determineAlertLevel (pga : ℚ) : String :=
  if pga ≥ PGA_THRESHOLD_VIOLENT then "EXTREME"
  else if pga ≥ PGA_THRESHOLD_SEVERE then "SEVERE"
  else if pga ≥ PGA_THRESHOLD_STRONG then "STRONG"
  else if pga ≥ PGA_THRESHOLD_MODERATE then "MODERATE"
  else if pga ≥ PGA_THRESHOLD_LIGHT then "LIGHT"
  else "NEGLIGIBLE"

/-- `EarthquakeDetector::calculateMagnitudeEstimate`: attenuation relation
on `pga·981` cm/s² with constants C1..C5 and `log10` abstracted as `lg`,
clamped into `[0, 10]` by `max(0, min(10, Mw))`. -/
def calculateMagnitudeEstimate (lg : ℚ → ℚ) (pga distance : ℚ) : ℚ :=
  let pgaCmS2 := pga * 981
  let mw := (lg pgaCmS2 - 2 + 1 * lg (distance + 5) + (3 / 1000) * distance)
      / (6 / 10)
  max 0 (min 10 mw)

/-- `EarthquakeDetector::updateBuffers`: append the sample; when the size
exceeds `ltaWindowSamples + staWindowSamples`, erase the oldest sample. -/
def updateBuffers (cfg : DetectorCfg) (buffer : List AccelSample)
    (sample : AccelSample) : List AccelSample :=
  let b := buffer ++ [sample]
  if b.length > cfg.ltaWindowSamples + cfg.staWindowSamples then b.drop 1
  else b

/-- `EarthquakeDetector::addSample`.  The sample's `millis()` timestamp is
passed in as `sample.timestamp`.  Mirrors the C++ flow: push into the
buffer; once the buffer holds at least `ltaWindowSamples` samples compute
the guarded STA/LTA ratio; on `ratio > triggerThreshold` from idle, enter
the episode (record `triggerTime`/`startTime`, zero the running PGA and
CAV); while triggered, fold the current PGA into the running max, refresh
CAV and `alertLevel`, and on `ratio < detriggerThreshold` close the
episode — setting `confirmed`/`magnitude` only when the duration reaches
the floor. -/
def addSample (cfg : DetectorCfg) (sqrtq lg : ℚ → ℚ) (s : DetectorState)
    (sample : AccelSample) : DetectorState :=
  let buf := updateBuffers cfg s.sampleBuffer sample
  if cfg.ltaWindowSamples ≤ buf.length then
    let ratio := staLtaRatio cfg sqrtq buf
    let entering := s.triggered = false ∧ ratio > cfg.triggerThreshold
    let trig1 : Bool := if entering then true else s.triggered
    let tTime1 : ℕ := if entering then sample.timestamp else s.triggerTime
    let ev1 : EarthquakeEvent :=
      if entering then
        { s.currentEvent with startTime := sample.timestamp, pga := 0, cav := 0 }
      else s.currentEvent
    if trig1 then
      let pga := calculatePGA cfg sqrtq buf
      let ev2 := if pga > ev1.pga then { ev1 with pga := pga } else ev1
      let ev3 := { ev2 with
        cav := calculateCAV cfg sqrtq tTime1 buf,
        alertLevel := determineAlertLevel ev2.pga }
      if ratio < cfg.detriggerThreshold then
        let dur := sample.timestamp - tTime1
        let ev4 := { ev3 with duration := dur }
        let ev5 :=
          if cfg.minEventDurationMs ≤ dur then
            { ev4 with
              confirmed := true,
              magnitude := calculateMagnitudeEstimate lg ev4.pga 10 }
          else ev4
        ⟨buf, false, tTime1, ev5⟩
      else ⟨buf, true, tTime1, ev3⟩
    else ⟨buf, trig1, tTime1, ev1⟩
  else ⟨buf, s.triggered, s.triggerTime, s.currentEvent⟩

/-- Run the detector over a sample list, oldest first. -/
def runDetector (cfg : DetectorCfg) (sqrtq lg : ℚ → ℚ)
    (s : DetectorState) (samples : List AccelSample) : DetectorState :=
  samples.foldl (addSample cfg sqrtq lg) s

/-- The STA/LTA ratios the detector computes along a run: for each sample,
the guarded ratio over the buffer as it stands right after that sample is
pushed (the value `addSample` consults whenever the buffer is long
enough). -/
def ratioTrace (cfg : DetectorCfg) (sqrtq lg : ℚ → ℚ)
    (s : DetectorState) : List AccelSample → List ℚ
  | [] => []
  | sample :: rest =>
    staLtaRatio cfg sqrtq (updateBuffers cfg s.sampleBuffer sample) ::
      ratioTrace cfg sqrtq lg (addSample cfg sqrtq lg s sample) rest

/-- `EventQueue::getUnsentCount`. -/
def getUnsentCount (queue : List QueuedEvent) : ℕ :=
  (queue.filter (fun e => !e.sent)).length

/-- `EventQueue::clearSentEvents`: remove every sent entry, keeping the
unsent ones in order. -/
def clearSentEvents (queue : List QueuedEvent) : List QueuedEvent :=
  queue.filter (fun e => !e.sent)

/-- State carried across iterations of the firmware `loop()` in
`main.cpp`: the detector, the function-static `lastAlertLevel`, the event
queue, and the trace of `AlertManager::sendAlert` calls (the flag is
`true` for `ALERT_ALL`, `false` for `ALERT_LOCAL`). -/
structure LoopState where
  detector : DetectorState
  lastAlertLevel : String
  queue : List QueuedEvent
  dispatched : List (EarthquakeEvent × Bool)
deriving Repr, DecidableEq

/-- The loop state after `setup()`: reset detector, empty static
`lastAlertLevel`, empty queue, nothing dispatched. -/
def initLoopState : LoopState :=
  ⟨resetState, "", [], []⟩

/-- One sampling tick of `loop()` in `main.cpp` (the branch entered every
`sampleInterval`), followed by the queue-drain branch.  Mirrors the C++
order: `detector.addSample(...)` first, then `wasTriggered =
detector.isTriggered()`; only under `wasTriggered` is `getCurrentEvent()`
consulted, the local alert level refreshed, and — when the event is
confirmed with positive duration — the alert dispatched (`ALERT_ALL` when
WiFi and MQTT are up, else `addEvent` plus `ALERT_LOCAL`) and the
detector reset.  The drain branch runs `processQueue` with the MQTT
publish (success modelled by `pubOk`) and sweeps sent entries. -/
def loopTick (cfg : DetectorCfg) (sqrtq lg : ℚ → ℚ) (deviceId : String)
    (st : LoopState) (sample : AccelSample) (wifi mqtt pubOk : Bool) :
    LoopState :=
  let d := addSample cfg sqrtq lg st.detector sample
  let st1 : LoopState :=
    if d.triggered then
      let event := d.currentEvent
      let last1 :=
        if event.alertLevel ≠ st.lastAlertLevel then event.alertLevel
        else st.lastAlertLevel
      if event.confirmed = true ∧ 0 < event.duration then
        if wifi ∧ mqtt then
          ⟨resetState, last1, st.queue, st.dispatched ++ [(event, true)]⟩
        else
          ⟨resetState, last1, addEvent st.queue event deviceId,
           st.dispatched ++ [(event, false)]⟩
      else ⟨d, last1, st.queue, st.dispatched⟩
    else ⟨d, st.lastAlertLevel, st.queue, st.dispatched⟩
  if wifi ∧ mqtt ∧ 0 < getUnsentCount st1.queue then
    { st1 with
      queue := clearSentEvents (processQueue (fun _ _ => pubOk) st1.queue).1 }
  else st1

/-- A run of the sampling loop over a list of ticks, each tick carrying
the conditioned sample and the connectivity/publish flags. -/
def runLoop (cfg : DetectorCfg) (sqrtq lg : ℚ → ℚ) (deviceId : String)
    (st : LoopState) (ticks : List (AccelSample × Bool × Bool × Bool)) :
    LoopState :=
  ticks.foldl (fun s t => loopTick cfg sqrtq lg deviceId s t.1 t.2.1 t.2.2.1 t.2.2.2) st

/-- The `QueuedEvent` that `addEvent` builds from its arguments. -/
def mkQueued (i : EarthquakeEvent × String) : QueuedEvent :=
  ⟨i.1, i.2, false⟩

lemma addMany_eq_drop (items : List (EarthquakeEvent × String)) :
    ∀ q : List QueuedEvent, q.length ≤ MAX_QUEUE_SIZE →
    addMany q items =
      (q ++ items.map mkQueued).drop
        (q.length + items.length - MAX_QUEUE_SIZE) := by
  induction items with
  | nil =>
    intro q h
    have hz : q.length - MAX_QUEUE_SIZE = 0 := by omega
    simp [addMany, hz]
  | cons i rest ih =>
    intro q h
    have hstep : addMany q (i :: rest) = addMany (addEvent q i.1 i.2) rest := rfl
    have hsplit : q ++ (i :: rest).map mkQueued =
        (q ++ [mkQueued i]) ++ rest.map mkQueued := by
      simp
    by_cases hq : q.length = MAX_QUEUE_SIZE
    · have hev : addEvent q i.1 i.2 = (q ++ [mkQueued i]).drop 1 := by
        simp [addEvent, mkQueued, MAX_QUEUE_SIZE] at hq ⊢; omega
      have hlen : ((q ++ [mkQueued i]).drop 1).length ≤ MAX_QUEUE_SIZE := by
        simp [MAX_QUEUE_SIZE] at hq ⊢; omega
      have h1 : (1 : ℕ) ≤ (q ++ [mkQueued i]).length := by simp
      rw [hstep, hev, ih _ hlen, ← List.drop_append_of_le_length h1,
        List.drop_drop, hsplit]
      congr 1
      simp [MAX_QUEUE_SIZE] at hq ⊢
      omega
    · have hlt : q.length < MAX_QUEUE_SIZE := lt_of_le_of_ne h hq
      have hev : addEvent q i.1 i.2 = q ++ [mkQueued i] := by
        simp [addEvent, mkQueued, MAX_QUEUE_SIZE] at hlt ⊢; omega
      have hlen : (q ++ [mkQueued i]).length ≤ MAX_QUEUE_SIZE := by
        simp; omega
      rw [hstep, hev, ih _ hlen, hsplit]
      congr 1
      simp
      omega

/-- C3: starting from any queue within capacity, any sequence of
`addEvent` calls leaves at most `MAX_QUEUE_SIZE` entries, the oldest
evicted on each overflow; 150 calls on an empty queue leave exactly the
100 newest entries (the 50 oldest evicted). -/
theorem queue_bounded_and_fifo_eviction
    (q : List QueuedEvent) (items : List (EarthquakeEvent × String))
    (h : q.length ≤ MAX_QUEUE_SIZE) :
    (addMany q items).length ≤ MAX_QUEUE_SIZE ∧
    addMany q items =
      (q ++ items.map mkQueued).drop
        (q.length + items.length - MAX_QUEUE_SIZE) ∧
    (q = [] → items.length = 150 →
      addMany q items = (items.map mkQueued).drop 50 ∧
      (addMany q items).length = 100) := by
  have hmain := addMany_eq_drop items q h
  refine ⟨?_, hmain, ?_⟩
  · rw [hmain, List.length_drop]
    simp [MAX_QUEUE_SIZE] at h ⊢
    omega
  · rintro rfl h150
    constructor
    · simpa [h150, MAX_QUEUE_SIZE] using hmain
    · rw [hmain, List.length_drop]
      simp [h150, MAX_QUEUE_SIZE]

/-- Witness for C3: 150 insertions into an empty queue. -/
theorem queue_bounded_and_fifo_eviction_witness :
    (addMany [] (List.replicate 150 (emptyEvent, "dev"))).length ≤ MAX_QUEUE_SIZE ∧
    addMany [] (List.replicate 150 (emptyEvent, "dev")) =
      (([] : List QueuedEvent) ++ (List.replicate 150 (emptyEvent, "dev")).map mkQueued).drop
        ((List.length ([] : List QueuedEvent)) + (List.replicate 150 (emptyEvent, "dev")).length - MAX_QUEUE_SIZE) ∧
    (([] : List QueuedEvent) = [] → (List.replicate 150 (emptyEvent, "dev")).length = 150 →
      addMany [] (List.replicate 150 (emptyEvent, "dev")) =
        ((List.replicate 150 (emptyEvent, "dev")).map mkQueued).drop 50 ∧
      (addMany [] (List.replicate 150 (emptyEvent, "dev"))).length = 100) :=
  queue_bounded_and_fifo_eviction [] (List.replicate 150 (emptyEvent, "dev"))
    (by simp)

lemma processQueueAux_skips_sent (send : ℕ → QueuedEvent → Bool)
    (l : List QueuedEvent) (hl : ∀ e ∈ l, e.sent = true) :
    ∀ (n : ℕ) (rest : List QueuedEvent),
      processQueueAux send n (l ++ rest) =
        ((l ++ (processQueueAux send n rest).1),
          (processQueueAux send n rest).2) := by
  induction l with
  | nil => intro n rest; simp
  | cons e t ih =>
    intro n rest
    have he : e.sent = true := hl e (by simp)
    have ht : ∀ x ∈ t, x.sent = true := fun x hx => hl x (by simp [hx])
    simp [processQueueAux, he, ih ht n rest]

/-- C4: `processQueue` walks the queue in insertion order, attempts only
unsent entries, marks each success, and stops at the first failure: with
a send function whose first two invocations succeed and whose third
fails, the first two unsent entries are marked sent and everything after
them — the third unsent entry included — is left exactly as it was, in
the original order. -/
theorem processQueue_stops_at_first_failure
    (s1 s2 s3 rest : List QueuedEvent) (a b c : QueuedEvent)
    (send : ℕ → QueuedEvent → Bool)
    (h1 : ∀ e ∈ s1, e.sent = true) (h2 : ∀ e ∈ s2, e.sent = true)
    (h3 : ∀ e ∈ s3, e.sent = true)
    (ha : a.sent = false) (hb : b.sent = false) (hc : c.sent = false)
    (f0 : ∀ e, send 0 e = true) (f1 : ∀ e, send 1 e = true)
    (f2 : ∀ e, send 2 e = false) :
    processQueue send (s1 ++ a :: (s2 ++ b :: (s3 ++ c :: rest))) =
      (s1 ++ { a with sent := true } ::
        (s2 ++ { b with sent := true } :: (s3 ++ c :: rest)), true) := by
  unfold processQueue
  rw [processQueueAux_skips_sent send s1 h1]
  simp only [processQueueAux, ha, hb, hc, f0 a, f1 b, f2 c,
    Bool.false_eq_true, if_false, if_true,
    processQueueAux_skips_sent send s2 h2,
    processQueueAux_skips_sent send s3 h3]

/-- A concrete unsent queue entry for witnesses. -/
def demoEntry : QueuedEvent :=
  ⟨emptyEvent, "dev", false⟩

/-- Witness for C4: a three-entry queue of unsent events and a send
function succeeding on its first two invocations and failing on the
third. -/
theorem processQueue_stops_at_first_failure_witness :
    processQueue (fun n _ => decide (n < 2))
        ([] ++ demoEntry :: ([] ++ demoEntry :: ([] ++ demoEntry :: []))) =
      ([] ++ { demoEntry with sent := true } ::
        ([] ++ { demoEntry with sent := true } ::
          ([] ++ demoEntry :: [])), true) :=
  processQueue_stops_at_first_failure [] [] [] [] demoEntry demoEntry
    demoEntry (fun n _ => decide (n < 2))
    (by simp) (by simp) (by simp) rfl rfl rfl
    (fun _ => rfl) (fun _ => rfl) (fun _ => rfl)

/-- C5 fails on the code: a full queue of `MAX_QUEUE_SIZE = 100` entries
does not survive the save/load round trip, because both directions go
through the fixed `DynamicJsonDocument(8192)` pool.  For 100 entries the
save document alone needs 100 × 12 slots ≈ 19 KB, so `saveToDisk` keeps
only the first 41 records — and still reports success; re-parsing even
that truncated file needs ≈ 11 KB (the stream parse copies every key),
so `loadFromDisk` fails with `NoMemory` and the queue comes back empty.
Either layer alone already falsifies the exact field-for-field round
trip the claim asserts for queues up to `MAX_QUEUE_SIZE`. -/
theorem queue_round_trip_lost_in_fixed_pool :
    (List.replicate 100 demoEntry).length ≤ MAX_QUEUE_SIZE ∧
    (saveToDisk true (List.replicate 100 demoEntry) .absent).1 = true ∧
    (storedRecords
        (saveToDisk true (List.replicate 100 demoEntry) .absent).2).length
      = 41 ∧
    loadFromDisk (saveToDisk true (List.replicate 100 demoEntry) .absent).2
        [] ≠ (true, List.replicate 100 demoEntry) ∧
    loadFromDisk (saveToDisk true (List.replicate 100 demoEntry) .absent).2
        [] = (false, []) := by
  refine ⟨by decide, rfl, by decide, ?_, by decide⟩
  decide

/-- C6 counterexample: on a corrupt persisted record, `init()` returns
`false` — the very same boot-failure signal it returns when the storage
mount fails — refuting the claim that the corrupt-record case does not
report boot failure and is distinguished from a mount failure. -/
theorem init_reports_failure_on_corrupt_record :
    (eqInit true .corrupt).1 = false ∧ (eqInit false .corrupt).1 = false :=
  ⟨rfl, rfl⟩

/-- C6 as amended: on a corrupt persisted record, `init()` leaves the
in-memory queue empty (the corrupt data never reaches it) but returns
`false`, the same failure signal as a storage mount failure; the corrupt
record itself is not deleted, and the orchestrator logs the failed
initialization and continues. -/
theorem init_empty_queue_on_corrupt_record :
    eqInit true .corrupt = (false, []) :=
  rfl

/-- C10: the attenuation-relation magnitude estimate is clamped into
`[0, 10]` by the final `max(0, min(10, Mw))`, whatever value the
logarithm term takes — in particular for `pga = 0`, where the true
`log10` diverges to `-∞` and the clamp still yields `0`. -/
theorem magnitude_estimate_clamped (lg : ℚ → ℚ) (pga distance : ℚ) :
    0 ≤ calculateMagnitudeEstimate lg pga distance ∧
    calculateMagnitudeEstimate lg pga distance ≤ 10 := by
  unfold calculateMagnitudeEstimate
  exact ⟨le_max_left _ _, max_le (by norm_num) (min_le_left _ _)⟩

/-- C9: decompose any buffer no shorter than the LTA window as
`pre ++ mid ++ recent` with `recent` the most recent `staWindowSamples`
samples and `mid` the `ltaWindowSamples − staWindowSamples` samples
immediately before them: STA is the mean of squared magnitude over
`recent`, LTA the mean over `mid` (disjoint from `recent`), and the
ratio is `STA/LTA` unless LTA is at most the `0.0001` guard, in which
case it is `0`. -/
theorem sta_lta_nonoverlapping_window_means
    (cfg : DetectorCfg) (sqrtq : ℚ → ℚ) (pre mid recent : List AccelSample)
    (hmid : mid.length = cfg.ltaWindowSamples - cfg.staWindowSamples)
    (hrec : recent.length = cfg.staWindowSamples)
    (hsl : cfg.staWindowSamples < cfg.ltaWindowSamples) :
    calculateSTA cfg sqrtq (pre ++ mid ++ recent) =
      ((recent.map (sqMag sqrtq)).sum) / (cfg.staWindowSamples : ℚ) ∧
    calculateLTA cfg sqrtq (pre ++ mid ++ recent) =
      ((mid.map (sqMag sqrtq)).sum) /
        ((cfg.ltaWindowSamples - cfg.staWindowSamples : ℕ) : ℚ) ∧
    (calculateLTA cfg sqrtq (pre ++ mid ++ recent) ≤ 1 / 10000 →
      staLtaRatio cfg sqrtq (pre ++ mid ++ recent) = 0) ∧
    (1 / 10000 < calculateLTA cfg sqrtq (pre ++ mid ++ recent) →
      staLtaRatio cfg sqrtq (pre ++ mid ++ recent) =
        calculateSTA cfg sqrtq (pre ++ mid ++ recent) /
          calculateLTA cfg sqrtq (pre ++ mid ++ recent)) := by
  have hlen : (pre ++ mid ++ recent).length =
      pre.length + mid.length + recent.length := by simp; omega
  have hsta : calculateSTA cfg sqrtq (pre ++ mid ++ recent) =
      ((recent.map (sqMag sqrtq)).sum) / (cfg.staWindowSamples : ℚ) := by
    unfold calculateSTA
    rw [if_neg (by simp; omega)]
    rw [List.drop_left' (by simp; omega)]
  have hlta : calculateLTA cfg sqrtq (pre ++ mid ++ recent) =
      ((mid.map (sqMag sqrtq)).sum) /
        ((cfg.ltaWindowSamples - cfg.staWindowSamples : ℕ) : ℚ) := by
    unfold calculateLTA
    rw [if_neg (by simp; omega)]
    simp only []
    rw [List.append_assoc, List.drop_left' (by simp; omega),
      List.take_left' hmid, if_pos (by omega)]
  refine ⟨hsta, hlta, ?_, ?_⟩
  · intro hle
    unfold staLtaRatio
    rw [if_neg (by exact not_lt.mpr hle)]
  · intro hgt
    unfold staLtaRatio
    rw [if_pos hgt]

/-- The severity order of the alert-level names (NEGLIGIBLE < LIGHT <
MODERATE < STRONG < SEVERE < EXTREME), for stating monotonicity of the
string-valued `determineAlertLevel`. -/
def alertRank (level : String) : ℕ :=
  if level = "EXTREME" then 5
  else if level = "SEVERE" then 4
  else if level = "STRONG" then 3
  else if level = "MODERATE" then 2
  else if level = "LIGHT" then 1
  else 0

lemma alertRank_determine_mono {p q : ℚ} (h : p ≤ q) :
    alertRank (determineAlertLevel p) ≤ alertRank (determineAlertLevel q) := by
  unfold determineAlertLevel PGA_THRESHOLD_VIOLENT PGA_THRESHOLD_SEVERE
    PGA_THRESHOLD_STRONG PGA_THRESHOLD_MODERATE PGA_THRESHOLD_LIGHT
  split_ifs <;> simp [alertRank] <;> linarith

lemma addSample_triggered_pga (cfg : DetectorCfg) (sqrtq lg : ℚ → ℚ)
    (s : DetectorState) (sample : AccelSample) (ht : s.triggered = true)
    (hbuf : cfg.ltaWindowSamples ≤
      (updateBuffers cfg s.sampleBuffer sample).length) :
    (addSample cfg sqrtq lg s sample).currentEvent.pga =
      (if calculatePGA cfg sqrtq (updateBuffers cfg s.sampleBuffer sample) >
          s.currentEvent.pga then
        calculatePGA cfg sqrtq (updateBuffers cfg s.sampleBuffer sample)
      else s.currentEvent.pga) := by
  unfold addSample
  rw [if_pos hbuf]
  simp only [ht, Bool.true_eq_false, false_and, if_false]
  split_ifs <;> rfl

lemma addSample_triggered_level (cfg : DetectorCfg) (sqrtq lg : ℚ → ℚ)
    (s : DetectorState) (sample : AccelSample) (ht : s.triggered = true)
    (hbuf : cfg.ltaWindowSamples ≤
      (updateBuffers cfg s.sampleBuffer sample).length) :
    (addSample cfg sqrtq lg s sample).currentEvent.alertLevel =
      determineAlertLevel
        ((addSample cfg sqrtq lg s sample).currentEvent.pga) := by
  unfold addSample
  rw [if_pos hbuf]
  simp only [ht, Bool.true_eq_false, false_and, if_false]
  split_ifs <;> rfl

/-- C7: while an episode is in progress (detector triggered, the stored
`alertLevel` the one derived from the stored running-max PGA, the buffer
long enough for the STA/LTA computation to run), one more sample never
decreases the running-max PGA nor the severity rank of `alertLevel`; and
`determineAlertLevel` itself is monotone in PGA.  Chained over the
samples of an episode this gives a non-decreasing alert level from
trigger entry to detrigger. -/
theorem alertLevel_never_regresses_in_episode
    (cfg : DetectorCfg) (sqrtq lg : ℚ → ℚ) (s : DetectorState)
    (sample : AccelSample)
    (ht : s.triggered = true)
    (hbuf : cfg.ltaWindowSamples ≤
      (updateBuffers cfg s.sampleBuffer sample).length)
    (hlvl : s.currentEvent.alertLevel =
      determineAlertLevel s.currentEvent.pga) :
    (s.currentEvent.pga ≤ (addSample cfg sqrtq lg s sample).currentEvent.pga ∧
     alertRank s.currentEvent.alertLevel ≤
       alertRank (addSample cfg sqrtq lg s sample).currentEvent.alertLevel) ∧
    ∀ p q : ℚ, p ≤ q →
      alertRank (determineAlertLevel p) ≤ alertRank (determineAlertLevel q) := by
  refine ⟨?_, fun p q hpq => alertRank_determine_mono hpq⟩
  have hmono : s.currentEvent.pga ≤
      (addSample cfg sqrtq lg s sample).currentEvent.pga := by
    rw [addSample_triggered_pga cfg sqrtq lg s sample ht hbuf]
    split_ifs with hp
    · exact le_of_lt hp
    · exact le_rfl
  refine ⟨hmono, ?_⟩
  rw [addSample_triggered_level cfg sqrtq lg s sample ht hbuf, hlvl]
  exact alertRank_determine_mono hmono

/-- C2: when a triggered episode (begun with an unconfirmed current
event) sees a sample whose STA/LTA ratio falls below the detrigger
threshold, the detector leaves the TRIGGERED state, records the episode
duration as the sample time minus the trigger time, and marks the event
confirmed — with the magnitude estimate computed from the episode's
peak PGA at the fixed 10-unit nominal distance — exactly when that
duration reaches the minimum-duration floor; below the floor the event
stays unconfirmed (no event is produced). -/
theorem episode_confirmed_iff_min_duration
    (cfg : DetectorCfg) (sqrtq lg : ℚ → ℚ) (s : DetectorState)
    (sample : AccelSample)
    (ht : s.triggered = true)
    (hc : s.currentEvent.confirmed = false)
    (hbuf : cfg.ltaWindowSamples ≤
      (updateBuffers cfg s.sampleBuffer sample).length)
    (hdet : staLtaRatio cfg sqrtq (updateBuffers cfg s.sampleBuffer sample) <
      cfg.detriggerThreshold) :
    (addSample cfg sqrtq lg s sample).triggered = false ∧
    (addSample cfg sqrtq lg s sample).currentEvent.duration =
      sample.timestamp - s.triggerTime ∧
    ((addSample cfg sqrtq lg s sample).currentEvent.confirmed = true ↔
      cfg.minEventDurationMs ≤ sample.timestamp - s.triggerTime) ∧
    ((addSample cfg sqrtq lg s sample).currentEvent.confirmed = true →
      (addSample cfg sqrtq lg s sample).currentEvent.magnitude =
        calculateMagnitudeEstimate lg
          ((addSample cfg sqrtq lg s sample).currentEvent.pga) 10) := by
  unfold addSample
  rw [if_pos hbuf]
  simp only [ht, Bool.true_eq_false, false_and, if_false, eq_self_iff_true,
    if_true]
  rw [if_pos hdet]
  by_cases hfloor : cfg.minEventDurationMs ≤ sample.timestamp - s.triggerTime
  · rw [if_pos hfloor]
    exact ⟨rfl, rfl, ⟨fun _ => hfloor, fun _ => rfl⟩, fun _ => rfl⟩
  · rw [if_neg hfloor]
    refine ⟨rfl, rfl, ?_, ?_⟩
    · simp only [hfloor, iff_false]
      split_ifs <;> simp [hc]
    · intro hx
      split_ifs at hx <;> simp [hc] at hx

lemma addSample_idle_of_ratio_le (cfg : DetectorCfg) (sqrtq lg : ℚ → ℚ)
    (s : DetectorState) (sample : AccelSample)
    (h : s.triggered = false)
    (hr : staLtaRatio cfg sqrtq (updateBuffers cfg s.sampleBuffer sample) ≤
      cfg.triggerThreshold) :
    (addSample cfg sqrtq lg s sample).triggered = false ∧
    (addSample cfg sqrtq lg s sample).currentEvent = s.currentEvent := by
  unfold addSample
  by_cases hbuf : cfg.ltaWindowSamples ≤
      (updateBuffers cfg s.sampleBuffer sample).length
  · rw [if_pos hbuf]
    simp only [h, eq_self_iff_true, true_and, gt_iff_lt,
      if_neg (not_lt.mpr hr), Bool.false_eq_true, if_false]
  · rw [if_neg hbuf]
    exact ⟨h, rfl⟩

lemma runDetector_stays_idle (cfg : DetectorCfg) (sqrtq lg : ℚ → ℚ) :
    ∀ (samples : List AccelSample) (s : DetectorState),
      s.triggered = false →
      (∀ r ∈ ratioTrace cfg sqrtq lg s samples, r ≤ cfg.triggerThreshold) →
      (runDetector cfg sqrtq lg s samples).triggered = false ∧
      (runDetector cfg sqrtq lg s samples).currentEvent = s.currentEvent := by
  intro samples
  induction samples with
  | nil => exact fun s h _ => ⟨h, rfl⟩
  | cons x xs ih =>
    intro s h hr
    have hx : staLtaRatio cfg sqrtq (updateBuffers cfg s.sampleBuffer x) ≤
        cfg.triggerThreshold := hr _ (by simp [ratioTrace])
    have hstep := addSample_idle_of_ratio_le cfg sqrtq lg s x h hx
    have hrest : ∀ r ∈ ratioTrace cfg sqrtq lg (addSample cfg sqrtq lg s x) xs,
        r ≤ cfg.triggerThreshold := by
      intro r hrr
      exact hr r (by simp [ratioTrace, hrr])
    have htail := ih (addSample cfg sqrtq lg s x) hstep.1 hrest
    have hfold : runDetector cfg sqrtq lg s (x :: xs) =
        runDetector cfg sqrtq lg (addSample cfg sqrtq lg s x) xs := rfl
    rw [hfold]
    exact ⟨htail.1, htail.2.trans hstep.2⟩

/-- C8: over any sample sequence whose guarded STA/LTA ratio never
exceeds the trigger threshold, the detector run from its reset state
stays IDLE after every sample and never confirms an event. -/
theorem no_trigger_below_threshold (cfg : DetectorCfg) (sqrtq lg : ℚ → ℚ)
    (samples : List AccelSample)
    (h : ∀ r ∈ ratioTrace cfg sqrtq lg resetState samples,
      r ≤ cfg.triggerThreshold) :
    (runDetector cfg sqrtq lg resetState samples).triggered = false ∧
    (runDetector cfg sqrtq lg resetState samples).currentEvent.confirmed =
      false := by
  have hrun := runDetector_stays_idle cfg sqrtq lg samples resetState rfl h
  exact ⟨hrun.1, by rw [hrun.2]; rfl⟩

/-- A small concrete configuration for the concrete runs: 1 Hz sampling,
1-sample STA window, 2-sample LTA window, the default thresholds 5.0 and
2.0, and a 1000 ms minimum event duration. -/
def demoCfg : DetectorCfg := ⟨1, 1, 2, 5, 2, 1000⟩

/-- A concrete stand-in for `std::log10` (the magnitude value it yields
is irrelevant to every property below). -/
def lgZero : ℚ → ℚ := fun _ => 0

/-- A quiescent sample: zero acceleration on every axis (magnitude
`9.81` after gravity compensation). -/
def quietSample (t : ℕ) : AccelSample := ⟨0, 0, 0, t⟩

/-- A strong-shaking sample: 100 m/s² on the z axis (magnitude `90.19`
after gravity compensation). -/
def strongSample (t : ℕ) : AccelSample := ⟨0, 0, 100, t⟩

/-- A concrete mid-episode detector state for witnesses: one buffered
sample, triggered at 1000 ms, current event consistent with a running-max
PGA of zero. -/
def demoTriggered : DetectorState :=
  ⟨[quietSample 0], true, 1000,
   { emptyEvent with alertLevel := "NEGLIGIBLE" }⟩

/-- Witness for C2: a quiescent sample at 3000 ms detriggers the episode
of `demoTriggered` (ratio 1 < 2) with duration 2000 ms ≥ the 1000 ms
floor, so the event confirms. -/
theorem episode_confirmed_iff_min_duration_witness :
    (addSample demoCfg demoSqrt lgZero demoTriggered
        (quietSample 3000)).triggered = false ∧
    (addSample demoCfg demoSqrt lgZero demoTriggered
        (quietSample 3000)).currentEvent.duration =
      (quietSample 3000).timestamp - demoTriggered.triggerTime ∧
    ((addSample demoCfg demoSqrt lgZero demoTriggered
        (quietSample 3000)).currentEvent.confirmed = true ↔
      demoCfg.minEventDurationMs ≤
        (quietSample 3000).timestamp - demoTriggered.triggerTime) ∧
    ((addSample demoCfg demoSqrt lgZero demoTriggered
        (quietSample 3000)).currentEvent.confirmed = true →
      (addSample demoCfg demoSqrt lgZero demoTriggered
          (quietSample 3000)).currentEvent.magnitude =
        calculateMagnitudeEstimate lgZero
          ((addSample demoCfg demoSqrt lgZero demoTriggered
              (quietSample 3000)).currentEvent.pga) 10) :=
  episode_confirmed_iff_min_duration demoCfg demoSqrt lgZero demoTriggered
    (quietSample 3000) rfl rfl (by decide)
    (by norm_num [staLtaRatio, calculateSTA, calculateLTA, sqMag,
      calculateMagnitude, demoSqrt, updateBuffers, demoCfg, quietSample,
      demoTriggered])

/-- Witness for C7: one more quiescent sample inside the episode of
`demoTriggered`. -/
theorem alertLevel_never_regresses_in_episode_witness :
    (demoTriggered.currentEvent.pga ≤
      (addSample demoCfg demoSqrt lgZero demoTriggered
          (quietSample 3000)).currentEvent.pga ∧
     alertRank demoTriggered.currentEvent.alertLevel ≤
       alertRank (addSample demoCfg demoSqrt lgZero demoTriggered
          (quietSample 3000)).currentEvent.alertLevel) ∧
    ∀ p q : ℚ, p ≤ q →
      alertRank (determineAlertLevel p) ≤ alertRank (determineAlertLevel q) :=
  alertLevel_never_regresses_in_episode demoCfg demoSqrt lgZero demoTriggered
    (quietSample 3000) rfl (by decide)
    (by norm_num [demoTriggered, emptyEvent, determineAlertLevel,
      PGA_THRESHOLD_VIOLENT, PGA_THRESHOLD_SEVERE, PGA_THRESHOLD_STRONG,
      PGA_THRESHOLD_MODERATE, PGA_THRESHOLD_LIGHT])

/-- Witness for C8: two quiescent samples from reset (ratios 0 and 1,
never above the trigger threshold 5). -/
theorem no_trigger_below_threshold_witness :
    (runDetector demoCfg demoSqrt lgZero resetState
        [quietSample 0, quietSample 1000]).triggered = false ∧
    (runDetector demoCfg demoSqrt lgZero resetState
        [quietSample 0, quietSample 1000]).currentEvent.confirmed = false :=
  no_trigger_below_threshold demoCfg demoSqrt lgZero
    [quietSample 0, quietSample 1000]
    (by norm_num [ratioTrace, addSample, updateBuffers, staLtaRatio,
      calculateSTA, calculateLTA, sqMag, calculateMagnitude, demoSqrt,
      resetState, emptyEvent, demoCfg, quietSample, abs_of_nonneg,
      abs_of_nonpos])

/-- Witness for C9: buffer `[] ++ [quietSample 0] ++ [quietSample 1000]`
under `demoCfg` (STA window 1, LTA window 2). -/
theorem sta_lta_nonoverlapping_window_means_witness :
    calculateSTA demoCfg demoSqrt ([] ++ [quietSample 0] ++ [quietSample 1000]) =
      (([quietSample 1000].map (sqMag demoSqrt)).sum) /
        (demoCfg.staWindowSamples : ℚ) ∧
    calculateLTA demoCfg demoSqrt ([] ++ [quietSample 0] ++ [quietSample 1000]) =
      (([quietSample 0].map (sqMag demoSqrt)).sum) /
        ((demoCfg.ltaWindowSamples - demoCfg.staWindowSamples : ℕ) : ℚ) ∧
    (calculateLTA demoCfg demoSqrt
        ([] ++ [quietSample 0] ++ [quietSample 1000]) ≤ 1 / 10000 →
      staLtaRatio demoCfg demoSqrt
        ([] ++ [quietSample 0] ++ [quietSample 1000]) = 0) ∧
    (1 / 10000 < calculateLTA demoCfg demoSqrt
        ([] ++ [quietSample 0] ++ [quietSample 1000]) →
      staLtaRatio demoCfg demoSqrt
          ([] ++ [quietSample 0] ++ [quietSample 1000]) =
        calculateSTA demoCfg demoSqrt
            ([] ++ [quietSample 0] ++ [quietSample 1000]) /
          calculateLTA demoCfg demoSqrt
            ([] ++ [quietSample 0] ++ [quietSample 1000])) :=
  sta_lta_nonoverlapping_window_means demoCfg demoSqrt []
    [quietSample 0] [quietSample 1000] rfl rfl (by decide)

/-- The C1 failing run: two quiescent ticks, then two strong ticks at
100 m/s² — trigger at 2000 ms (ratio ≈ 84.5 > 5), detrigger at 3000 ms
(ratio 1 < 2) with duration 1000 ms, exactly the minimum floor — with
WiFi, MQTT and publish all available at every tick. -/
def demoTicks : List (AccelSample × Bool × Bool × Bool) :=
  [(quietSample 0, true, true, true), (quietSample 1000, true, true, true),
   (strongSample 2000, true, true, true), (strongSample 3000, true, true, true)]

set_option maxHeartbeats 4000000 in
/-- C1 fails on the code: over `demoTicks` the detector finalizes a
confirmed event (duration 1000 ms, at the floor) at the 3000 ms tick, but
because `loop()` reads `detector.isTriggered()` *after* `addSample` — and
the detriggering call that sets `confirmed` also clears `triggered` — the
`wasTriggered` guard skips the dispatch branch on exactly that tick: the
run ends with the confirmed event still inside the detector,
`sendAlert` never invoked and the persistent queue empty, despite full
connectivity.  The event is neither dispatched nor queued before a later
episode can overwrite its fields. -/
theorem loop_drops_confirmed_event :
    (runLoop demoCfg demoSqrt lgZero "dev" initLoopState
        demoTicks).detector.currentEvent.confirmed = true ∧
    (runLoop demoCfg demoSqrt lgZero "dev" initLoopState
        demoTicks).detector.currentEvent.duration = 1000 ∧
    (runLoop demoCfg demoSqrt lgZero "dev" initLoopState
        demoTicks).detector.triggered = false ∧
    (runLoop demoCfg demoSqrt lgZero "dev" initLoopState
        demoTicks).dispatched = [] ∧
    (runLoop demoCfg demoSqrt lgZero "dev" initLoopState
        demoTicks).queue = [] := by
  norm_num [runLoop, loopTick, addSample, updateBuffers, staLtaRatio,
    calculateSTA, calculateLTA, sqMag, calculateMagnitude, calculatePGA,
    calculateCAV, determineAlertLevel, calculateMagnitudeEstimate, demoSqrt,
    getUnsentCount, clearSentEvents, processQueue, processQueueAux, addEvent,
    resetState, emptyEvent, initLoopState, demoCfg, lgZero, quietSample,
    strongSample, demoTicks, List.foldl, PGA_THRESHOLD_VIOLENT,
    PGA_THRESHOLD_SEVERE, PGA_THRESHOLD_STRONG, PGA_THRESHOLD_MODERATE,
    PGA_THRESHOLD_LIGHT, abs_of_nonneg, abs_of_nonpos]
